import Mathlib

/-!
Shallow embedding of the peer-connection lifecycle core of
libbitcoin-network: the channel timer machinery (src/channel.cpp) and the
session registration pipeline (src/sessions/session.cpp).

Asynchronous continuation passing is embedded as explicit state passing:
each operation maps a state to a new state together with the list of
handler invocations it performs, in invocation order.  The transport
proxy, the network registry and the handshake protocols are external to
the two source files; where one of their outcomes feeds a continuation it
is supplied as an oracle value, and where their own behaviour matters it
is modelled from the spec, marked as such in the doc comment.
-/

/-- Error codes surfaced across the boundary of this core (spec section 6),
as used by channel.cpp and session.cpp. -/
inductive Code where
  | success
  | operation_failed
  | service_stopped
  | channel_stopped
  | channel_timeout
  | address_in_use
  deriving DecidableEq

/-- A single-shot deadline timer: the armed flag together with the base
duration fixed at construction (the alarm factory in channel.cpp builds the
deadline once with a jittered duration; a later start re-arms it without
changing that duration). -/
structure Deadline where
  running : Bool
  duration : Nat
  deriving DecidableEq

/-- Arm the one-shot timer. -/
def Deadline.start (t : Deadline) : Deadline :=
  { t with running := true }

/-- Cancel the timer (idempotent). -/
def Deadline.stop (t : Deadline) : Deadline :=
  { t with running := false }

/-- A network authority: an IP address with a port. -/
structure Authority where
  ip : Nat
  port : Nat
  deriving DecidableEq

/-- The construction-time configuration consumed by this core
(spec section 6). -/
structure Settings where
  channel_expiration : Nat
  channel_inactivity : Nat
  protocol_maximum : Nat
  blacklists : List Authority
  deriving DecidableEq

/-- State of one channel, as held by channel.cpp plus the proxy-level
stopped flag its guards read.  proxyStopped stands for proxy::stopped(). -/
structure Channel where
  proxyStopped : Bool
  notify : Bool
  nonce : Nat
  negotiated_version : Nat
  expiration : Deadline
  inactivity : Deadline
  deriving DecidableEq

/-- channel::channel — notify_ is false, nonce_ is 0, the two timers are
constructed unarmed with the configured durations.  Modelled from the spec:
the proxy base class is not under src/; per the spec a created channel is
not yet active (proxy stopped) and its negotiated version is initialized to
the configured maximum. -/
def Channel.construct (st : Settings) : Channel :=
  { proxyStopped := true
    notify := false
    nonce := 0
    negotiated_version := st.protocol_maximum
    expiration := { running := false, duration := st.channel_expiration }
    inactivity := { running := false, duration := st.channel_inactivity } }

/-- channel::set_notify. -/
def Channel.set_notify (c : Channel) (v : Bool) : Channel :=
  { c with notify := v }

/-- channel::set_nonce — the argument is a uint64, reduced mod 2^64. -/
def Channel.set_nonce (c : Channel) (v : Nat) : Channel :=
  { c with nonce := v % 2 ^ 64 }

/-- channel::start_expiration — arms the expiration timer unless the proxy
is stopped. -/
def Channel.start_expiration (c : Channel) : Channel :=
  if c.proxyStopped then c
  else { c with expiration := c.expiration.start }

/-- channel::start_inactivity — arms the inactivity timer unless the proxy
is stopped. -/
def Channel.start_inactivity (c : Channel) : Channel :=
  if c.proxyStopped then c
  else { c with inactivity := c.inactivity.start }

/-- channel::signal_activity — restarts the inactivity timer only. -/
def Channel.signal_activity (c : Channel) : Channel :=
  c.start_inactivity

/-- channel::handle_stopping — stops both timers unconditionally. -/
def Channel.handle_stopping (c : Channel) : Channel :=
  { c with expiration := c.expiration.stop, inactivity := c.inactivity.stop }

/-- channel::stopped(ec) — true when the proxy is stopped or the code is
channel_stopped or service_stopped. -/
def Channel.stopped (c : Channel) (ec : Code) : Bool :=
  c.proxyStopped || ec == Code.channel_stopped || ec == Code.service_stopped

/-- Modelled from the spec: proxy::stop is not under src/; per the spec it
is idempotent, marks the channel stopped, and the stop sequence invokes
handle_stopping, which cancels both timers. -/
def Channel.stop (c : Channel) ( _ec : Code) : Channel :=
  if c.proxyStopped then c
  else Channel.handle_stopping { c with proxyStopped := true }

/-- channel::handle_expiration — no-op when stopped(ec), else
stop(channel_timeout). -/
def Channel.handle_expiration (c : Channel) (ec : Code) : Channel :=
  if c.stopped ec then c else c.stop Code.channel_timeout

/-- channel::handle_inactivity — no-op when stopped(ec), else
stop(channel_timeout). -/
def Channel.handle_inactivity (c : Channel) (ec : Code) : Channel :=
  if c.stopped ec then c else c.stop Code.channel_timeout

/-- channel::do_start — the continuation bound by channel::start onto the
proxy start.  The source ignores the code it receives: it arms both timers
and hands error::success to the handler.  The returned code is the value
passed to the handler. -/
def Channel.do_start (c : Channel) ( _ec : Code) : Channel × Code :=
  ((c.start_expiration).start_inactivity, Code.success)

/-- Modelled from the spec: proxy::start is not under src/; the transport
outcome is supplied as the oracle code, and on success the proxy becomes
enabled (not stopped) before the bound continuation runs with that
outcome. -/
def proxyStart (c : Channel) (ec : Code) : Channel × Code :=
  if ec = Code.success then ({ c with proxyStopped := false }, Code.success)
  else (c, ec)

/-- channel::start — delegates to the proxy start with do_start bound as
the continuation; the returned code is the value the caller handler
receives. -/
def Channel.start (c : Channel) (transport : Code) : Channel × Code :=
  let r := proxyStart c transport
  r.1.do_start r.2

/-- The handshake protocol variant a session attaches (reject handling from
bip61 up). -/
inductive ProtocolVariant where
  | protocol_version_31402
  | protocol_version_70002
  deriving DecidableEq

/-- message::version::level::bip61, the threshold for reject support. -/
def bip61 : Nat := 70002

/-- Observable handler invocations and attachments performed by the session
code, recorded in invocation order. -/
inductive Event where
  | started (ec : Code)
  | stoppedHandler (ec : Code)
  | handlerCall (ec : Code)
  | subscribedChannelStop
  | subscribedNodeStop
  | protocolStarted (v : ProtocolVariant)
  | removed
  deriving DecidableEq

/-- State of one session: the stopped flag, the notify-on-connect policy
copied into each channel, and the configured settings it reads. -/
structure Session where
  stopped_ : Bool
  notify_on_connect_ : Bool
  settings_ : Settings
  deriving DecidableEq

/-- session::session — constructed with stopped_ true. -/
def Session.construct (st : Settings) (notify_on_connect : Bool) : Session :=
  { stopped_ := true, notify_on_connect_ := notify_on_connect,
    settings_ := st }

/-- session::blacklisted — any_of over the configured blacklists, comparing
the IP of the authority with the IP of each blocked entry. -/
def Session.blacklisted (s : Session) (a : Authority) : Bool :=
  s.settings_.blacklists.any fun blocked => a.ip == blocked.ip

/-- session::start — if not stopped, the handler gets operation_failed and
nothing changes; otherwise the stopped flag is cleared, handle_stop is
subscribed to the node-wide stop signal, and the handler gets success. -/
def Session.start (s : Session) : Session × List Event :=
  if s.stopped_ = false then
    (s, [Event.handlerCall Code.operation_failed])
  else
    ({ s with stopped_ := false },
     [Event.subscribedNodeStop, Event.handlerCall Code.success])

/-- session::handle_stop — the node-wide stop signal sets the stopped
flag. -/
def Session.handle_stop (s : Session) : Session :=
  { s with stopped_ := true }

/-- Outcomes of the external collaborators feeding the registration
pipeline continuations: the transport start result, the handshake protocol
result, the registry store result, and the pseudo-random nonce draw. -/
structure Oracle where
  transport : Code
  handshake : Code
  store : Code
  nonceDraw : Nat
  deriving DecidableEq

/-- session::attach_handshake_protocols — selects the variant by the
negotiated version against the bip61 threshold. -/
def Session.attach_handshake_protocols (c : Channel) : ProtocolVariant :=
  if bip61 ≤ c.negotiated_version then ProtocolVariant.protocol_version_70002
  else ProtocolVariant.protocol_version_31402

/-- session::handshake_complete — hands the registry store outcome to
handle_started. -/
def Session.handshake_complete (o : Oracle) : Code :=
  o.store

/-- session::handle_handshake — forwards a handshake error to
handle_started, otherwise proceeds to handshake_complete.  The returned
code is the value handle_started receives. -/
def Session.handle_handshake (ec : Code) (o : Oracle) : Code :=
  if ec = Code.success then Session.handshake_complete o else ec

/-- session::handle_starting — forwards a channel start error to
handle_started; on success attaches the handshake protocol variant and
starts it, the variant outcome flowing on through handle_handshake.
Returns the channel, the code handle_started receives, and the recorded
events. -/
def Session.handle_starting (ec : Code) (c : Channel) (o : Oracle) :
    Channel × Code × List Event :=
  if ec = Code.success then
    (c, Session.handle_handshake o.handshake o,
     [Event.protocolStarted (Session.attach_handshake_protocols c)])
  else
    (c, ec, [])

/-- session::start_channel — copies the notify policy into the channel,
assigns the pseudo-random nonce drawn from [1, max_uint64], and starts the
channel with handle_starting bound as the continuation. -/
def Session.start_channel (s : Session) (c : Channel) (o : Oracle) :
    Channel × Code × List Event :=
  let c1 := (c.set_notify s.notify_on_connect_).set_nonce o.nonceDraw
  let r := Channel.start c1 o.transport
  Session.handle_starting r.2 r.1 o

/-- session::handle_start — on error stops the channel and invokes
handle_stopped(ec) now; on success subscribes handle_remove to the channel
stop event instead.  In both branches handle_started(ec) is the final
call. -/
def Session.handle_start (ec : Code) (c : Channel) : Channel × List Event :=
  if ec = Code.success then
    (c, [Event.subscribedChannelStop, Event.started ec])
  else
    (c.stop ec, [Event.stoppedHandler ec, Event.started ec])

/-- session::handle_remove — removes the channel from the registry and
invokes handle_stopped(success). -/
def Session.handle_remove : List Event :=
  [Event.removed, Event.stoppedHandler Code.success]

/-- session::register_channel — on a stopped session both handlers fire
with service_stopped and nothing else happens; otherwise the pipeline runs
from start_channel with handle_start bound as the completion funnel. -/
def Session.register_channel (s : Session) (c : Channel) (o : Oracle) :
    Channel × List Event :=
  if s.stopped_ then
    (c, [Event.started Code.service_stopped,
         Event.stoppedHandler Code.service_stopped])
  else
    let r := Session.start_channel s c o
    let f := Session.handle_start r.2.1 r.1
    (f.1, r.2.2 ++ f.2)

/-- max_uint64. -/
def max_uint64 : Nat := 2 ^ 64 - 1

/-- The channel operations that can act on a channel after construction,
closing the set of states reachable through channel.cpp: construction,
start, activity signalling, the two timer handlers, stop, and the nonce
and notify setters. -/
inductive Reachable : Channel → Prop where
  | construct (st : Settings) : Reachable (Channel.construct st)
  | start (c : Channel) (t : Code) : Reachable c → Reachable (Channel.start c t).1
  | signal_activity (c : Channel) : Reachable c → Reachable c.signal_activity
  | handle_expiration (c : Channel) (ec : Code) :
      Reachable c → Reachable (c.handle_expiration ec)
  | handle_inactivity (c : Channel) (ec : Code) :
      Reachable c → Reachable (c.handle_inactivity ec)
  | stop (c : Channel) (ec : Code) : Reachable c → Reachable (c.stop ec)
  | set_nonce (c : Channel) (v : Nat) : Reachable c → Reachable (c.set_nonce v)
  | set_notify (c : Channel) (v : Bool) : Reachable c → Reachable (c.set_notify v)

/-- A concrete configuration used by the closed witness statements. -/
def testSettings : Settings :=
  { channel_expiration := 60, channel_inactivity := 10,
    protocol_maximum := 70015, blacklists := [{ ip := 7, port := 8333 }] }

/-- A freshly constructed concrete channel. -/
def testChannel : Channel := Channel.construct testSettings

/-- A concrete channel whose proxy is enabled and whose timers are off. -/
def enabledChannel : Channel := { testChannel with proxyStopped := false }

/-- A concrete session as constructed, hence stopped. -/
def stoppedSession : Session := Session.construct testSettings true

/-- A concrete oracle where every collaborator succeeds. -/
def testOracle : Oracle :=
  { transport := Code.success, handshake := Code.success,
    store := Code.success, nonceDraw := 42 }

/-- C5: channel::handle_expiration and channel::handle_inactivity are
no-ops exactly when stopped(ec) holds, where stopped(ec) is true iff the
channel is already stopped or ec is channel_stopped or service_stopped;
otherwise each calls stop(channel_timeout). -/
theorem channel_timer_handlers_guard (c : Channel) (ec : Code) :
    (c.stopped ec =
      (c.proxyStopped || ec == Code.channel_stopped ||
        ec == Code.service_stopped)) ∧
    (c.stopped ec = true →
      c.handle_expiration ec = c ∧ c.handle_inactivity ec = c) ∧
    (c.stopped ec = false →
      c.handle_expiration ec = c.stop Code.channel_timeout ∧
      c.handle_inactivity ec = c.stop Code.channel_timeout) := by
  refine ⟨rfl, ?_, ?_⟩ <;> intro h <;>
    simp [Channel.handle_expiration, Channel.handle_inactivity, h]

/-- Witness for C5 at a concrete stopped channel and the success code. -/
theorem channel_timer_handlers_guard_witness :
    Channel.handle_expiration testChannel Code.success = testChannel :=
  ((channel_timer_handlers_guard testChannel Code.success).2.1 (by decide)).1

/-- C8: channel::signal_activity touches only the inactivity timer: the
expiration timer (flag and duration) and every other field are unchanged,
the inactivity duration is unchanged, and on a live channel the inactivity
timer ends re-armed. -/
theorem channel_signal_activity_frame (c : Channel) :
    c.signal_activity.expiration = c.expiration ∧
    c.signal_activity.proxyStopped = c.proxyStopped ∧
    c.signal_activity.notify = c.notify ∧
    c.signal_activity.nonce = c.nonce ∧
    c.signal_activity.negotiated_version = c.negotiated_version ∧
    c.signal_activity.inactivity.duration = c.inactivity.duration ∧
    (c.proxyStopped = false → c.signal_activity.inactivity.running = true) := by
  unfold Channel.signal_activity Channel.start_inactivity Deadline.start
  split <;> simp_all

/-- Witness for C8 at a concrete enabled channel. -/
theorem channel_signal_activity_frame_witness :
    enabledChannel.signal_activity.expiration = enabledChannel.expiration ∧
    enabledChannel.signal_activity.inactivity.running = true :=
  ⟨(channel_signal_activity_frame enabledChannel).1,
   (channel_signal_activity_frame enabledChannel).2.2.2.2.2.2 rfl⟩

/-- C9: session::blacklisted is true exactly when some configured blacklist
entry has the same IP as the authority; the port plays no role. -/
theorem session_blacklisted_ip_only (s : Session) (a : Authority) :
    (s.blacklisted a = true ↔
      ∃ b ∈ s.settings_.blacklists, a.ip = b.ip) ∧
    (∀ p q : Nat,
      s.blacklisted { a with port := p } =
        s.blacklisted { a with port := q }) := by
  constructor
  · simp [Session.blacklisted, List.any_eq_true, beq_iff_eq]
  · intro p q
    rfl

/-- Witness for C9: a concrete authority matching the configured blacklist
entry on IP though not on port. -/
theorem session_blacklisted_ip_only_witness :
    Session.blacklisted stoppedSession { ip := 7, port := 1 } = true :=
  (session_blacklisted_ip_only stoppedSession { ip := 7, port := 1 }).1.mpr
    ⟨{ ip := 7, port := 8333 }, by decide, rfl⟩

/-- C7: session::attach_handshake_protocols attaches and starts exactly one
handshake protocol variant, the 70002 variant iff the negotiated version is
at least bip61, the 31402 variant iff it is strictly below. -/
theorem session_attach_handshake_selects (c : Channel) (o : Oracle) :
    (Session.attach_handshake_protocols c =
        ProtocolVariant.protocol_version_70002 ↔
      bip61 ≤ c.negotiated_version) ∧
    (Session.attach_handshake_protocols c =
        ProtocolVariant.protocol_version_31402 ↔
      c.negotiated_version < bip61) ∧
    (Session.handle_starting Code.success c o).2.2 =
      [Event.protocolStarted (Session.attach_handshake_protocols c)] := by
  refine ⟨?_, ?_, by simp [Session.handle_starting]⟩ <;>
    unfold Session.attach_handshake_protocols <;> split <;> simp_all

/-- Witness for C7 at a concrete channel negotiated above the threshold. -/
theorem session_attach_handshake_selects_witness :
    Session.attach_handshake_protocols testChannel =
      ProtocolVariant.protocol_version_70002 :=
  (session_attach_handshake_selects testChannel testOracle).1.mpr (by decide)

/-- C2: session::handle_start invokes handle_started(ec) exactly once and
as the final step in both branches; on an error it stops the channel with
ec and invokes handle_stopped(ec) immediately; on success it subscribes
handle_remove to the channel stop event and does not invoke handle_stopped
now. -/
theorem session_handle_start_funnel (ec : Code) (c : Channel) :
    ((Session.handle_start ec c).2.count (Event.started ec) = 1) ∧
    ((Session.handle_start ec c).2.getLast? = some (Event.started ec)) ∧
    (ec ≠ Code.success →
      (Session.handle_start ec c).1 = c.stop ec ∧
      (Session.handle_start ec c).2.count (Event.stoppedHandler ec) = 1) ∧
    (ec = Code.success →
      (Session.handle_start ec c).1 = c ∧
      Event.subscribedChannelStop ∈ (Session.handle_start ec c).2 ∧
      ∀ e : Code, Event.stoppedHandler e ∉ (Session.handle_start ec c).2) := by
  by_cases h : ec = Code.success <;>
    simp [Session.handle_start, h, List.count_cons, List.getLast?]

/-- Witness for C2 at a concrete error code and channel. -/
theorem session_handle_start_funnel_witness :
    (Session.handle_start Code.address_in_use enabledChannel).1 =
      enabledChannel.stop Code.address_in_use :=
  ((session_handle_start_funnel Code.address_in_use enabledChannel).2.2.1
    (by decide)).1

/-- C3: session::register_channel on a stopped session fires
handle_started(service_stopped) and handle_stopped(service_stopped) exactly
once each and returns with the channel untouched, entering no pipeline
stage. -/
theorem session_register_channel_stopped (s : Session) (c : Channel)
    (o : Oracle) (h : s.stopped_ = true) :
    Session.register_channel s c o =
      (c, [Event.started Code.service_stopped,
           Event.stoppedHandler Code.service_stopped]) ∧
    ((Session.register_channel s c o).2.count
      (Event.started Code.service_stopped) = 1) ∧
    ((Session.register_channel s c o).2.count
      (Event.stoppedHandler Code.service_stopped) = 1) ∧
    (Session.register_channel s c o).1.expiration.running =
      c.expiration.running ∧
    (Session.register_channel s c o).1.inactivity.running =
      c.inactivity.running := by
  simp [Session.register_channel, h, List.count_cons]

/-- Witness for C3 at a concrete stopped session. -/
theorem session_register_channel_stopped_witness :
    Session.register_channel stoppedSession testChannel testOracle =
      (testChannel,
       [Event.started Code.service_stopped,
        Event.stoppedHandler Code.service_stopped]) :=
  (session_register_channel_stopped stoppedSession testChannel testOracle
    (by decide)).1

/-- C6: session::start on an already started session invokes the handler
with operation_failed and changes nothing; on a stopped session it clears
the stopped flag, subscribes handle_stop to the node-wide stop signal, and
then invokes the handler with success. -/
theorem session_start_contract (s : Session) :
    (s.stopped_ = false →
      Session.start s = (s, [Event.handlerCall Code.operation_failed])) ∧
    (s.stopped_ = true →
      Session.start s =
        ({ s with stopped_ := false },
         [Event.subscribedNodeStop, Event.handlerCall Code.success])) := by
  constructor <;> intro h <;> simp [Session.start, h]

/-- Witness for C6 at a concrete stopped session. -/
theorem session_start_contract_witness :
    Session.start stoppedSession =
      ({ stoppedSession with stopped_ := false },
       [Event.subscribedNodeStop, Event.handlerCall Code.success]) :=
  (session_start_contract stoppedSession).2 (by decide)

/-- Helper: session::handle_starting returns its channel unchanged in both
branches. -/
theorem handle_starting_fst (ec : Code) (c : Channel) (o : Oracle) :
    (Session.handle_starting ec c o).1 = c := by
  unfold Session.handle_starting
  split <;> rfl

/-- Helper: channel::start leaves the nonce unchanged. -/
theorem channel_start_fst_nonce (c : Channel) (t : Code) :
    (Channel.start c t).1.nonce = c.nonce := by
  rcases eq_or_ne t Code.success with h | h <;>
    simp [Channel.start, proxyStart, Channel.do_start,
      Channel.start_expiration, Channel.start_inactivity, Deadline.start, h,
      apply_ite Channel.nonce]

/-- Helper: the channel produced by session::start_channel carries the
drawn nonce reduced mod 2^64; no later stage of the start pipeline changes
it. -/
theorem start_channel_nonce (s : Session) (c : Channel) (o : Oracle) :
    (Session.start_channel s c o).1.nonce = o.nonceDraw % 2 ^ 64 := by
  simp only [Session.start_channel, handle_starting_fst,
    channel_start_fst_nonce, Channel.set_nonce, Channel.set_notify]

/-- C10: session::start_channel assigns the channel a nonce drawn from
[1, max_uint64], so a channel that has entered the registration pipeline
has a strictly positive nonce, whereas a freshly constructed channel has
nonce 0. -/
theorem session_start_channel_nonce_positive (st : Settings) (s : Session)
    (c : Channel) (o : Oracle) (h1 : 1 ≤ o.nonceDraw)
    (h2 : o.nonceDraw ≤ max_uint64) :
    0 < (Session.start_channel s c o).1.nonce ∧
    (Channel.construct st).nonce = 0 := by
  refine ⟨?_, rfl⟩
  rw [start_channel_nonce]
  have hlt : o.nonceDraw < 2 ^ 64 := by
    unfold max_uint64 at h2
    omega
  rw [Nat.mod_eq_of_lt hlt]
  exact h1

/-- Witness for C10 at a concrete oracle drawing 42. -/
theorem session_start_channel_nonce_positive_witness :
    0 < (Session.start_channel stoppedSession testChannel testOracle).1.nonce :=
  (session_start_channel_nonce_positive testSettings stoppedSession
    testChannel testOracle (by decide) (by decide)).1

/-- Helper: over every reachable channel state each timer running flag
equals the negation of the proxy stopped flag. -/
theorem reachable_timers_track_proxy (c : Channel) (h : Reachable c) :
    c.expiration.running = !c.proxyStopped ∧
    c.inactivity.running = !c.proxyStopped := by
  induction h with
  | construct st => exact ⟨rfl, rfl⟩
  | start c t hr ih =>
      rcases c with ⟨ps, nf, nn, nv, ⟨er, edur⟩, ⟨ir, idur⟩⟩
      rcases eq_or_ne t Code.success with ht | ht <;> cases ps <;>
        simp_all [Channel.start, proxyStart, Channel.do_start,
          Channel.start_expiration, Channel.start_inactivity, Deadline.start]
  | signal_activity c hr ih =>
      rcases c with ⟨ps, nf, nn, nv, ⟨er, edur⟩, ⟨ir, idur⟩⟩
      cases ps <;>
        simp_all [Channel.signal_activity, Channel.start_inactivity,
          Deadline.start]
  | handle_expiration c ec hr ih =>
      rcases c with ⟨ps, nf, nn, nv, ⟨er, edur⟩, ⟨ir, idur⟩⟩
      cases ps <;> cases ec <;>
        simp_all [Channel.handle_expiration, Channel.stopped, Channel.stop,
          Channel.handle_stopping, Deadline.stop]
  | handle_inactivity c ec hr ih =>
      rcases c with ⟨ps, nf, nn, nv, ⟨er, edur⟩, ⟨ir, idur⟩⟩
      cases ps <;> cases ec <;>
        simp_all [Channel.handle_inactivity, Channel.stopped, Channel.stop,
          Channel.handle_stopping, Deadline.stop]
  | stop c ec hr ih =>
      rcases c with ⟨ps, nf, nn, nv, ⟨er, edur⟩, ⟨ir, idur⟩⟩
      cases ps <;>
        simp_all [Channel.stop, Channel.handle_stopping, Deadline.stop]
  | set_nonce c v hr ih => simpa [Channel.set_nonce] using ih
  | set_notify c v hr ih => simpa [Channel.set_notify] using ih

/-- C4: in every reachable channel state the expiration and inactivity
timers are either both running or both stopped. -/
theorem channel_timers_agree (c : Channel) (h : Reachable c) :
    c.expiration.running = c.inactivity.running := by
  obtain ⟨h1, h2⟩ := reachable_timers_track_proxy c h
  rw [h1, h2]

/-- Witness for C4 at the concrete state reached by a successful start
after construction. -/
theorem channel_timers_agree_witness :
    (Channel.start (Channel.construct testSettings)
        Code.success).1.expiration.running =
      (Channel.start (Channel.construct testSettings)
        Code.success).1.inactivity.running :=
  channel_timers_agree _
    (Reachable.start _ Code.success (Reachable.construct testSettings))

/-- C1 counterexample: channel::do_start ignores the transport outcome.
At a concrete enabled channel and the failing code operation_failed it
still arms both timers and hands success to the handler, refuting the
claim that the timers are armed conditional on the transport outcome. -/
theorem channel_do_start_unconditional_cex :
    (enabledChannel.do_start Code.operation_failed).1.expiration.running =
      true ∧
    (enabledChannel.do_start Code.operation_failed).1.inactivity.running =
      true ∧
    (enabledChannel.do_start Code.operation_failed).2 = Code.success := by
  decide

/-- C1 amended: channel::start delegates to the proxy start with do_start
bound as the continuation, so the timers are not armed before the proxy
start completes; do_start however ignores the transport result code — on an
enabled proxy it behaves identically for every code, arming both timers
and invoking the handler with success, and a start whose transport
succeeds likewise ends with both timers armed and the handler receiving
success. -/
theorem channel_start_delegation (c : Channel) (ec : Code)
    (h : c.proxyStopped = false) :
    Channel.start c ec = (proxyStart c ec).1.do_start (proxyStart c ec).2 ∧
    c.do_start ec = c.do_start Code.success ∧
    (c.do_start ec).2 = Code.success ∧
    (c.do_start ec).1.expiration.running = true ∧
    (c.do_start ec).1.inactivity.running = true ∧
    (Channel.start c Code.success).2 = Code.success ∧
    (Channel.start c Code.success).1.expiration.running = true ∧
    (Channel.start c Code.success).1.inactivity.running = true := by
  refine ⟨rfl, rfl, rfl, ?_, ?_, rfl, ?_, ?_⟩ <;>
    simp [Channel.start, proxyStart, Channel.do_start,
      Channel.start_expiration, Channel.start_inactivity, Deadline.start, h]

/-- Witness for the amended C1 at a concrete enabled channel and a failing
code. -/
theorem channel_start_delegation_witness :
    (enabledChannel.do_start Code.channel_timeout).1.expiration.running =
      true :=
  (channel_start_delegation enabledChannel Code.channel_timeout
    rfl).2.2.2.1
